import Mathlib

/-!
logging-operator: directive assembly and driver predicates

A shallow embedding of

* `pkg/sdk/model/output/kinesis_stream.go`
  (`KinesisStreamOutputConfig`, `KinesisStreamAssumeRoleCredentials`, `ToDirective`),
* `pkg/sdk/logging/model/syslogng/config/destination.go`
  (`destinationDefStmt`, `isActiveDestinationDriver`, `hasDestDriverTag`),
* `pkg/sdk/logging/model/syslogng/config/parser.go`
  (`parserDefStmt`, `isActiveParserDriver`, `hasParserDriverTag`).

Go functions returning `(T, error)` are embedded as functions returning a pair
`T × Option Err`, where `none` is the nil error; Go pointers that may be nil
are `Option` values, and the nil interface value of `types.Directive` is the
constructor `Directive.nil`.
-/

namespace types

/-- Modelled from the spec: `types.Params`, the parameter mapping of one record
("ordered key→string result of mapping one record"); its declaration is not in
the sources, `ToDirective` only stores it. -/
abbrev Params := List (String × String)

/-- The `types.PluginMeta` header, with the four fields `ToDirective` sets.
The Go field `Type` is spelled `Type_` since `Type` is reserved. -/
structure PluginMeta where
  Type_ : String
  Directive : String
  Tag : String
  Id : String
deriving DecidableEq, Repr

/-- The `types.OutputPlugin` node over child values of type `D`:
header, parameter mapping and the ordered list of sub-directives. -/
structure OutputPlugin (D : Type) where
  PluginMeta : PluginMeta
  Params : Params
  SubDirectives : List D

/-- Values of the `types.Directive` interface: the nil interface value, or a
pointer to an `OutputPlugin` whose children are again interface values. -/
inductive Directive where
  | nil : Directive
  | plugin : OutputPlugin Directive → Directive

end types

namespace output

open types

/-- The `KinesisStreamAssumeRoleCredentials` record (`assume_role_credentials`). -/
structure KinesisStreamAssumeRoleCredentials where
  RoleArn : String
  RoleSessionName : String
  Policy : String
  DurationSeconds : String
  ExternalId : String
deriving DecidableEq, Repr

/-- The `KinesisStreamOutputConfig` record. `Secret`, `Format` and `Buffer` are
the types `secret.Secret`, `output.Format` and `output.Buffer`, whose
declarations are not in the sources; pointer fields are `Option`s. -/
structure KinesisStreamOutputConfig (Secret Format Buffer : Type) where
  StreamName : String
  PartitionKey : String
  AWSKeyId : Option Secret
  AWSSECKey : Option Secret
  AWSSESToken : Option Secret
  AWSIAMRetries : Int
  AssumeRoleCredentials : Option KinesisStreamAssumeRoleCredentials
  Region : String
  RetriesOnBatchRequest : Int
  ResetBackoffIfSuccess : Bool
  BatchRequestMaxCount : Int
  BatchRequestMaxSize : Int
  Format : Option Format
  Buffer : Option Buffer

/-- The field names of `KinesisStreamOutputConfig` in declaration order. -/
def KinesisStreamOutputConfig.fieldNames : List String :=
  ["StreamName", "PartitionKey", "AWSKeyId", "AWSSECKey", "AWSSESToken",
   "AWSIAMRetries", "AssumeRoleCredentials", "Region", "RetriesOnBatchRequest",
   "ResetBackoffIfSuccess", "BatchRequestMaxCount", "BatchRequestMaxSize",
   "Format", "Buffer"]

/-- The three functions `ToDirective` calls whose bodies are not in the sources:
`types.NewStructToStringMapper(secretLoader).StringsMap(e)`,
`(*Buffer).ToDirective(secretLoader, id)` and `(*Format).ToDirective(secretLoader, id)`.
Each returns a Go pair `(value, error)`. -/
structure Callees (Secret SecretLoader Format Buffer Err : Type) where
  StringsMap : SecretLoader → KinesisStreamOutputConfig Secret Format Buffer →
    Params × Option Err
  BufferToDirective : Buffer → SecretLoader → String → Directive × Option Err
  FormatToDirective : Format → SecretLoader → String → Directive × Option Err

section ToDirective

variable {Secret SecretLoader Format Buffer Err : Type}

/-- The method `(*KinesisStreamOutputConfig).ToDirective`, statement by statement:
the pair returned is `(types.Directive, error)`. -/
def KinesisStreamOutputConfig.ToDirective
    (c : Callees Secret SecretLoader Format Buffer Err)
    (e : KinesisStreamOutputConfig Secret Format Buffer)
    (secretLoader : SecretLoader) (id : String) : Directive × Option Err := Id.run do
  let pluginType := "kinesis_streams"
  let pluginID := id ++ "_" ++ pluginType
  let mut kinesis : OutputPlugin Directive :=
    { PluginMeta := { Type_ := pluginType, Directive := "match", Tag := "**", Id := pluginID },
      Params := [],
      SubDirectives := [] }
  match c.StringsMap secretLoader e with
  | (_, some err) => return (Directive.nil, some err)
  | (params, none) => kinesis := { kinesis with Params := params }
  if let some b := e.Buffer then
    match c.BufferToDirective b secretLoader pluginID with
    | (_, some err) => return (Directive.nil, some err)
    | (buffer, none) =>
      kinesis := { kinesis with SubDirectives := kinesis.SubDirectives ++ [buffer] }
  if let some f := e.Format then
    match c.FormatToDirective f secretLoader "" with
    | (_, some err) => return (Directive.nil, some err)
    | (format, none) =>
      kinesis := { kinesis with SubDirectives := kinesis.SubDirectives ++ [format] }
  return (Directive.plugin kinesis, none)

end ToDirective

/-- A sample `secret.SecretLoader`/callee set on which every call succeeds: the
mapper yields `stream_name` and `region`, the buffer and format sub-blocks are
named by a string and compiled into a leaf node whose identifier is built from
the base id they receive. -/
def sampleCallees : Callees Unit Unit String String String where
  StringsMap := fun _ e => ([("stream_name", e.StreamName), ("region", e.Region)], none)
  BufferToDirective := fun b _ id =>
    (Directive.plugin
      { PluginMeta := { Type_ := b, Directive := "buffer", Tag := "", Id := id ++ "_buffer" },
        Params := [], SubDirectives := [] }, none)
  FormatToDirective := fun f _ id =>
    (Directive.plugin
      { PluginMeta := { Type_ := f, Directive := "format", Tag := "", Id := id ++ "_format" },
        Params := [], SubDirectives := [] }, none)

/-- The record `{StreamName: "orders", Region: "us-east-1", Format: &F}` with
every other field at its zero value. -/
def sampleRecord : KinesisStreamOutputConfig Unit String String where
  StreamName := "orders"
  PartitionKey := ""
  AWSKeyId := none
  AWSSECKey := none
  AWSSESToken := none
  AWSIAMRetries := 0
  AssumeRoleCredentials := none
  Region := "us-east-1"
  RetriesOnBatchRequest := 0
  ResetBackoffIfSuccess := false
  BatchRequestMaxCount := 0
  BatchRequestMaxSize := 0
  Format := some "json"
  Buffer := none

/-- The sample record with a `Buffer` sub-block as well as the `Format` one. -/
def sampleRecordBoth : KinesisStreamOutputConfig Unit String String :=
  { sampleRecord with Buffer := some "file" }

/-- A record whose only nested configuration is `AssumeRoleCredentials`. -/
def sampleRecordAssumeRole : KinesisStreamOutputConfig Unit String String :=
  { sampleRecord with
    Format := none
    AssumeRoleCredentials := some
      { RoleArn := "arn:aws:iam::123456789012:role/logs", RoleSessionName := "logging",
        Policy := "", DurationSeconds := "", ExternalId := "" } }

/-- The sample callees with a `Format` compilation that fails, returning a
non-nil directive next to its error. -/
def sampleCalleesFormatFails : Callees Unit Unit String String String :=
  { sampleCallees with
    FormatToDirective := fun f _ id =>
      ((sampleCallees.FormatToDirective f () id).1, some "format: unknown type") }

end output

namespace reflect

/-- The `reflect.Kind` values of the field shapes a configuration record has. -/
inductive Kind where
  | Bool | Int | String | Struct | Slice | Map | Interface | Pointer
deriving DecidableEq, Repr

/-- A `reflect.Type`: the declared type of a field, as far as `Kind()` and the
element type of a pointer, slice or map show it. -/
inductive RType where
  | bool : RType
  | int : RType
  | string : RType
  | struct (name : String) : RType
  | slice (elem : RType) : RType
  | map (key elem : RType) : RType
  | interface : RType
  | pointer (elem : RType) : RType
deriving DecidableEq, Repr

/-- The method `reflect.Type.Kind`. -/
def RType.Kind : RType → Kind
  | .bool => Kind.Bool
  | .int => Kind.Int
  | .string => Kind.String
  | .struct _ => Kind.Struct
  | .slice _ => Kind.Slice
  | .map _ _ => Kind.Map
  | .interface => Kind.Interface
  | .pointer _ => Kind.Pointer

/-- A `reflect.StructField`: name, declared type and raw tag string. -/
structure StructField where
  Name : String
  Type_ : RType
  Tag : String
deriving DecidableEq, Repr

/-- A `reflect.Value`, as far as `IsNil` reads it: the kind of the value and,
for the kinds that can be nil, whether it is. -/
structure Value where
  Kind : Kind
  isNil : Bool
deriving DecidableEq, Repr

/-- The method `reflect.Value.IsNil`: defined on interface, map, pointer and
slice values, a panic (`none`) on a value of any other kind. -/
def Value.IsNil (v : Value) : Option Bool :=
  match v.Kind with
  | Kind.Interface | Kind.Map | Kind.Pointer | Kind.Slice => some v.isNil
  | _ => none

end reflect

namespace config

open reflect

/-- The `Field` descriptor of package `config`: the two members the driver
predicates read, `Meta` and `Value`. -/
structure Field where
  Meta : StructField
  Value : Value
deriving DecidableEq, Repr

/-- The tag-settings functions the driver predicates call, whose bodies are not
in the sources: `structFieldSettings` and the method `Has` of its result. -/
structure TagSettings (Settings : Type) where
  structFieldSettings : StructField → Settings
  Has : Settings → String → Bool

section Drivers

variable {Settings Renderer : Type}

/-- The function `destinationDefStmt`; `braceDefStmt` is declared elsewhere in
the package and is passed in. -/
def destinationDefStmt (braceDefStmt : String → String → Renderer → Renderer)
    (name : String) (body : Renderer) : Renderer :=
  braceDefStmt "destination" name body

/-- The function `hasDestDriverTag`. -/
def hasDestDriverTag (ts : TagSettings Settings) (f : Field) : Bool :=
  ts.Has (ts.structFieldSettings f.Meta) "dest-drv"

/-- The function `isActiveDestinationDriver`. The Go `&&` evaluates
`f.Value.IsNil()` only when the two tests before it hold; `none` is the panic
of `IsNil` on a value that cannot be nil. -/
def isActiveDestinationDriver (ts : TagSettings Settings) (f : Field) : Option Bool :=
  if hasDestDriverTag ts f && f.Meta.Type_.Kind == Kind.Pointer then
    f.Value.IsNil.map fun b => !b
  else
    some false

/-- The function `parserDefStmt`. -/
def parserDefStmt (braceDefStmt : String → String → Renderer → Renderer)
    (name : String) (body : Renderer) : Renderer :=
  braceDefStmt "parser" name body

/-- The function `hasParserDriverTag`. -/
def hasParserDriverTag (ts : TagSettings Settings) (f : Field) : Bool :=
  ts.Has (ts.structFieldSettings f.Meta) "parser-drv"

/-- The function `isActiveParserDriver`. -/
def isActiveParserDriver (ts : TagSettings Settings) (f : Field) : Option Bool :=
  if hasParserDriverTag ts f && f.Meta.Type_.Kind == Kind.Pointer then
    f.Value.IsNil.map fun b => !b
  else
    some false

end Drivers

/-- Modelled from the spec: the error kinds of section 7 (their declarations are
not in the sources); `MultipleActiveVariantsError` carries the record's name,
"multiple active variants for record X". -/
inductive CompileError where
  | TagParseError : CompileError
  | SecretResolutionError : CompileError
  | MultipleActiveVariantsError (record : String) : CompileError
  | UnsupportedFieldTypeError : CompileError
deriving DecidableEq, Repr

/-- Modelled from the spec: the Driver/Variant Selector of section 4.3, whose
code (the caller of the `isActive...Driver` predicates) is not in the sources.
It scans the fields in declaration order and keeps those that qualify as
active; none gives a record with no variant body, one gives that field, more
than one is the configuration error "multiple active variants for record X". -/
def selectActiveDriver (isActive : Field → Option Bool) (record : String)
    (fields : List Field) : Except CompileError (Option Field) :=
  match fields.filter fun f => isActive f == some true with
  | [] => Except.ok none
  | [f] => Except.ok (some f)
  | _ :: _ :: _ => Except.error (CompileError.MultipleActiveVariantsError record)

/-- Sample tag settings: a tag is one bare flag, which is the setting it has. -/
def sampleTags : TagSettings String where
  structFieldSettings := fun sf => sf.Tag
  Has := fun s key => s == key

/-- A non-nil field `File *FileDest` tagged `dest-drv`. -/
def sampleFileDriver : Field where
  Meta := { Name := "File", Type_ := RType.pointer (RType.struct "FileDest"), Tag := "dest-drv" }
  Value := { Kind := Kind.Pointer, isNil := false }

/-- A non-nil field `Syslog *SyslogDest` tagged `dest-drv`. -/
def sampleSyslogDriver : Field where
  Meta := { Name := "Syslog", Type_ := RType.pointer (RType.struct "SyslogDest"),
            Tag := "dest-drv" }
  Value := { Kind := Kind.Pointer, isNil := false }

/-- A non-nil field `Path *string` tagged `dest-drv`: a pointer, but not to a
nested record. -/
def samplePointerToString : Field where
  Meta := { Name := "Path", Type_ := RType.pointer RType.string, Tag := "dest-drv" }
  Value := { Kind := Kind.Pointer, isNil := false }

/-- A non-nil field `Pattern *string` tagged `parser-drv`. -/
def sampleParserPointerToString : Field where
  Meta := { Name := "Pattern", Type_ := RType.pointer RType.string, Tag := "parser-drv" }
  Value := { Kind := Kind.Pointer, isNil := false }

end config

/-! `ToDirective`: the three outcomes -/

namespace output

open types

section ToDirectiveLemmas

variable {Secret SecretLoader Format Buffer Err : Type}

/-- `ToDirective` returns the nil error exactly when the mapper and the
compilation of each sub-block that is set return the nil error. -/
theorem ToDirective_ok_iff (c : Callees Secret SecretLoader Format Buffer Err)
    (e : KinesisStreamOutputConfig Secret Format Buffer)
    (secretLoader : SecretLoader) (id : String) :
    (e.ToDirective c secretLoader id).2 = none ↔
      (c.StringsMap secretLoader e).2 = none ∧
      (∀ b, e.Buffer = some b →
        (c.BufferToDirective b secretLoader (id ++ "_" ++ "kinesis_streams")).2 = none) ∧
      (∀ f, e.Format = some f → (c.FormatToDirective f secretLoader "").2 = none) := by
  unfold KinesisStreamOutputConfig.ToDirective
  rcases hm : c.StringsMap secretLoader e with ⟨params, _ | err⟩
  · rcases hb : e.Buffer with _ | b
    · rcases hf : e.Format with _ | f
      · simp [Id.run]
      · rcases hfd : c.FormatToDirective f secretLoader "" with ⟨d, _ | err⟩ <;>
          simp [Id.run, hfd]
    · rcases hbd : c.BufferToDirective b secretLoader (id ++ "_" ++ "kinesis_streams")
        with ⟨d, _ | err⟩
      · rcases hf : e.Format with _ | f
        · simp [Id.run, hbd]
        · rcases hfd : c.FormatToDirective f secretLoader "" with ⟨d, _ | err⟩ <;>
            simp [Id.run, hfd, hbd]
      · simp [Id.run, hbd]
  · simp [Id.run]

/-- On the nil error the directive returned is the node with the fixed header,
the mapper's parameters, and the compiled `Buffer` then the compiled `Format`
as children. -/
theorem ToDirective_ok (c : Callees Secret SecretLoader Format Buffer Err)
    (e : KinesisStreamOutputConfig Secret Format Buffer)
    (secretLoader : SecretLoader) (id : String)
    (h : (e.ToDirective c secretLoader id).2 = none) :
    (e.ToDirective c secretLoader id).1 = Directive.plugin
      { PluginMeta := { Type_ := "kinesis_streams", Directive := "match", Tag := "**",
                        Id := id ++ "_" ++ "kinesis_streams" },
        Params := (c.StringsMap secretLoader e).1,
        SubDirectives :=
          (e.Buffer.toList.map fun b =>
            (c.BufferToDirective b secretLoader (id ++ "_" ++ "kinesis_streams")).1) ++
          (e.Format.toList.map fun f => (c.FormatToDirective f secretLoader "").1) } := by
  revert h
  unfold KinesisStreamOutputConfig.ToDirective
  rcases hm : c.StringsMap secretLoader e with ⟨params, _ | err⟩
  · rcases hb : e.Buffer with _ | b
    · rcases hf : e.Format with _ | f
      · simp [Id.run]
      · rcases hfd : c.FormatToDirective f secretLoader "" with ⟨d, _ | err⟩ <;>
          simp [Id.run, hfd]
    · rcases hbd : c.BufferToDirective b secretLoader (id ++ "_" ++ "kinesis_streams")
        with ⟨d, _ | err⟩
      · rcases hf : e.Format with _ | f
        · simp [Id.run, hbd]
        · rcases hfd : c.FormatToDirective f secretLoader "" with ⟨d, _ | err⟩ <;>
            simp [Id.run, hfd, hbd]
      · simp [Id.run, hbd]
  · simp [Id.run]

/-- On a non-nil error the directive returned is the nil interface value. -/
theorem ToDirective_err (c : Callees Secret SecretLoader Format Buffer Err)
    (e : KinesisStreamOutputConfig Secret Format Buffer)
    (secretLoader : SecretLoader) (id : String)
    (h : (e.ToDirective c secretLoader id).2 ≠ none) :
    (e.ToDirective c secretLoader id).1 = Directive.nil := by
  revert h
  unfold KinesisStreamOutputConfig.ToDirective
  rcases hm : c.StringsMap secretLoader e with ⟨params, _ | err⟩
  · rcases hb : e.Buffer with _ | b
    · rcases hf : e.Format with _ | f
      · simp [Id.run]
      · rcases hfd : c.FormatToDirective f secretLoader "" with ⟨d, _ | err⟩ <;>
          simp [Id.run, hfd]
    · rcases hbd : c.BufferToDirective b secretLoader (id ++ "_" ++ "kinesis_streams")
        with ⟨d, _ | err⟩
      · rcases hf : e.Format with _ | f
        · simp [Id.run, hbd]
        · rcases hfd : c.FormatToDirective f secretLoader "" with ⟨d, _ | err⟩ <;>
            simp [Id.run, hfd, hbd]
      · simp [Id.run, hbd]
  · simp [Id.run]

/-- The synthesized identifier, with the two literals joined. -/
theorem pluginID_eq (id : String) :
    id ++ "_" ++ "kinesis_streams" = id ++ "_kinesis_streams" := by
  rw [String.append_assoc]
  rfl

/-! Claims about `ToDirective` -/

/-- Claim C1: whenever `ToDirective` succeeds, the root node has plugin type
`kinesis_streams`, identifier `id ++ "_" ++ "kinesis_streams"`, directive
`match` and tag `**`, whatever the record holds. -/
theorem ToDirective_root_header (c : Callees Secret SecretLoader Format Buffer Err)
    (e : KinesisStreamOutputConfig Secret Format Buffer)
    (secretLoader : SecretLoader) (id : String)
    (h : (e.ToDirective c secretLoader id).2 = none) :
    ∃ p, (e.ToDirective c secretLoader id).1 = Directive.plugin p ∧
      p.PluginMeta.Type_ = "kinesis_streams" ∧
      p.PluginMeta.Id = id ++ "_" ++ "kinesis_streams" ∧
      p.PluginMeta.Directive = "match" ∧
      p.PluginMeta.Tag = "**" :=
  ⟨_, ToDirective_ok c e secretLoader id h, rfl, rfl, rfl, rfl⟩

end ToDirectiveLemmas

/-- Claim C1 at the sample record and id `out1`: the call succeeds and the root
is typed `kinesis_streams` with identifier `out1_kinesis_streams`. -/
theorem ToDirective_root_header_witness :
    (sampleRecord.ToDirective sampleCallees () "out1").2 = none ∧
    ∃ p, (sampleRecord.ToDirective sampleCallees () "out1").1 = Directive.plugin p ∧
      p.PluginMeta.Type_ = "kinesis_streams" ∧
      p.PluginMeta.Id = "out1_kinesis_streams" ∧
      p.PluginMeta.Directive = "match" ∧
      p.PluginMeta.Tag = "**" :=
  ⟨rfl, ToDirective_root_header sampleCallees sampleRecord () "out1" rfl⟩

section ToDirectiveClaims

variable {Secret SecretLoader Format Buffer Err : Type}

/-- Claim C2: `ToDirective` returns an error exactly when the mapper fails, or
`Buffer` is set and its compilation fails, or `Format` is set and its
compilation fails; with an error the directive is nil, and without one it is
the complete node: header, the mapper's parameters and a child for every
sub-block that is set. -/
theorem ToDirective_error_iff_and_all_or_nothing
    (c : Callees Secret SecretLoader Format Buffer Err)
    (e : KinesisStreamOutputConfig Secret Format Buffer)
    (secretLoader : SecretLoader) (id : String) :
    ((e.ToDirective c secretLoader id).2 ≠ none ↔
      ((c.StringsMap secretLoader e).2 ≠ none ∨
       (∃ b, e.Buffer = some b ∧
          (c.BufferToDirective b secretLoader (id ++ "_" ++ "kinesis_streams")).2 ≠ none) ∨
       (∃ f, e.Format = some f ∧ (c.FormatToDirective f secretLoader "").2 ≠ none))) ∧
    ((e.ToDirective c secretLoader id).2 ≠ none →
      (e.ToDirective c secretLoader id).1 = Directive.nil) ∧
    ((e.ToDirective c secretLoader id).2 = none →
      (e.ToDirective c secretLoader id).1 = Directive.plugin
        { PluginMeta := { Type_ := "kinesis_streams", Directive := "match", Tag := "**",
                          Id := id ++ "_" ++ "kinesis_streams" },
          Params := (c.StringsMap secretLoader e).1,
          SubDirectives :=
            (e.Buffer.toList.map fun b =>
              (c.BufferToDirective b secretLoader (id ++ "_" ++ "kinesis_streams")).1) ++
            (e.Format.toList.map fun f => (c.FormatToDirective f secretLoader "").1) }) := by
  refine ⟨?_, ToDirective_err c e secretLoader id, ToDirective_ok c e secretLoader id⟩
  rw [Ne, ToDirective_ok_iff c e secretLoader id]
  constructor
  · intro h
    by_contra hcon
    push_neg at hcon
    exact h ⟨hcon.1, fun b hb => hcon.2.1 b hb, fun f hf => hcon.2.2 f hf⟩
  · rintro (hm | ⟨b, hb, hbe⟩ | ⟨f, hf, hfe⟩) ⟨h1, h2, h3⟩
    · exact hm h1
    · exact hbe (h2 b hb)
    · exact hfe (h3 f hf)

/-- Claim C3: with both `Buffer` and `Format` set and compilation succeeding,
the root has exactly two children, the compiled `Buffer` first and the compiled
`Format` second, although the record declares `Format` before `Buffer`. -/
theorem ToDirective_children_order (c : Callees Secret SecretLoader Format Buffer Err)
    (e : KinesisStreamOutputConfig Secret Format Buffer)
    (secretLoader : SecretLoader) (id : String) (b : Buffer) (f : Format)
    (hb : e.Buffer = some b) (hf : e.Format = some f)
    (h : (e.ToDirective c secretLoader id).2 = none) :
    (∃ p, (e.ToDirective c secretLoader id).1 = Directive.plugin p ∧
      p.SubDirectives =
        [(c.BufferToDirective b secretLoader (id ++ "_" ++ "kinesis_streams")).1,
         (c.FormatToDirective f secretLoader "").1]) ∧
    KinesisStreamOutputConfig.fieldNames.indexOf "Format" <
      KinesisStreamOutputConfig.fieldNames.indexOf "Buffer" := by
  refine ⟨⟨_, ToDirective_ok c e secretLoader id h, ?_⟩, by decide⟩
  simp [hb, hf]

/-- Claim C4: whenever `ToDirective` succeeds, the child list of the root is the
directive compiled from `Buffer` if `Buffer` is set, followed by the directive
compiled from `Format` if `Format` is set, and nothing else: its length is the
number of the two fields that are set. -/
theorem ToDirective_children_exact (c : Callees Secret SecretLoader Format Buffer Err)
    (e : KinesisStreamOutputConfig Secret Format Buffer)
    (secretLoader : SecretLoader) (id : String)
    (h : (e.ToDirective c secretLoader id).2 = none) :
    ∃ p, (e.ToDirective c secretLoader id).1 = Directive.plugin p ∧
      p.SubDirectives =
        (match e.Buffer with
          | some b => [(c.BufferToDirective b secretLoader (id ++ "_" ++ "kinesis_streams")).1]
          | none => []) ++
        (match e.Format with
          | some f => [(c.FormatToDirective f secretLoader "").1]
          | none => []) ∧
      p.SubDirectives.length =
        (if e.Buffer.isSome then 1 else 0) + (if e.Format.isSome then 1 else 0) := by
  refine ⟨_, ToDirective_ok c e secretLoader id h, ?_, ?_⟩ <;>
    cases e.Buffer <;> cases e.Format <;> simp

/-- Claim C6, what the code does: `ToDirective` compiles no child from
`AssumeRoleCredentials`. With `AssumeRoleCredentials` set and neither `Buffer`
nor `Format`, a successful call returns a root with no children at all. -/
theorem ToDirective_no_AssumeRoleCredentials_child
    (c : Callees Secret SecretLoader Format Buffer Err)
    (e : KinesisStreamOutputConfig Secret Format Buffer)
    (secretLoader : SecretLoader) (id : String)
    (cred : KinesisStreamAssumeRoleCredentials)
    (_hc : e.AssumeRoleCredentials = some cred)
    (hb : e.Buffer = none) (hf : e.Format = none)
    (h : (e.ToDirective c secretLoader id).2 = none) :
    ∃ p, (e.ToDirective c secretLoader id).1 = Directive.plugin p ∧ p.SubDirectives = [] := by
  refine ⟨_, ToDirective_ok c e secretLoader id h, ?_⟩
  simp [hb, hf]

/-- Claim C8: whenever `ToDirective` succeeds, the parameters of the root are
the mapping `StringsMap` returned for the record under the same secret loader,
unchanged. -/
theorem ToDirective_params (c : Callees Secret SecretLoader Format Buffer Err)
    (e : KinesisStreamOutputConfig Secret Format Buffer)
    (secretLoader : SecretLoader) (id : String)
    (h : (e.ToDirective c secretLoader id).2 = none) :
    ∃ p, (e.ToDirective c secretLoader id).1 = Directive.plugin p ∧
      p.Params = (c.StringsMap secretLoader e).1 :=
  ⟨_, ToDirective_ok c e secretLoader id h, rfl⟩

/-- Claim C10: in a successful call a `Buffer` that is set is compiled under the
base id `id ++ "_kinesis_streams"` and is the first child, a `Format` that is
set is compiled under the empty base id and is the last child; so for two
caller ids on which the call succeeds the `Format` child is the same. -/
theorem ToDirective_base_ids (c : Callees Secret SecretLoader Format Buffer Err)
    (e : KinesisStreamOutputConfig Secret Format Buffer)
    (secretLoader : SecretLoader) (id id2 : String)
    (h : (e.ToDirective c secretLoader id).2 = none)
    (h2 : (e.ToDirective c secretLoader id2).2 = none) :
    ∃ p p2, (e.ToDirective c secretLoader id).1 = Directive.plugin p ∧
      (e.ToDirective c secretLoader id2).1 = Directive.plugin p2 ∧
      (∀ b, e.Buffer = some b → p.SubDirectives.head? =
        some (c.BufferToDirective b secretLoader (id ++ "_kinesis_streams")).1) ∧
      (∀ f, e.Format = some f → p.SubDirectives.getLast? =
        some (c.FormatToDirective f secretLoader "").1) ∧
      (e.Format.isSome → p.SubDirectives.getLast? = p2.SubDirectives.getLast?) := by
  refine ⟨_, _, ToDirective_ok c e secretLoader id h, ToDirective_ok c e secretLoader id2 h2,
    ?_, ?_, ?_⟩
  · intro b hb
    simp [hb, pluginID_eq]
  · intro f hf
    simp [hf]
  · intro hf
    obtain ⟨f, hf⟩ := Option.isSome_iff_exists.mp hf
    simp [hf]

/-- The error `ToDirective` returns is the first one met, in the order mapper,
`Buffer`, `Format`: the mapper's error; else the error of a set `Buffer`; else,
the `Buffer` step having passed, the error of a set `Format`. -/
theorem ToDirective_first_error (c : Callees Secret SecretLoader Format Buffer Err)
    (e : KinesisStreamOutputConfig Secret Format Buffer)
    (secretLoader : SecretLoader) (id : String) :
    (∀ err, (c.StringsMap secretLoader e).2 = some err →
      e.ToDirective c secretLoader id = (Directive.nil, some err)) ∧
    (∀ b err, (c.StringsMap secretLoader e).2 = none → e.Buffer = some b →
      (c.BufferToDirective b secretLoader (id ++ "_" ++ "kinesis_streams")).2 = some err →
      e.ToDirective c secretLoader id = (Directive.nil, some err)) ∧
    (∀ f err, (c.StringsMap secretLoader e).2 = none →
      (∀ b, e.Buffer = some b →
        (c.BufferToDirective b secretLoader (id ++ "_" ++ "kinesis_streams")).2 = none) →
      e.Format = some f → (c.FormatToDirective f secretLoader "").2 = some err →
      e.ToDirective c secretLoader id = (Directive.nil, some err)) := by
  unfold KinesisStreamOutputConfig.ToDirective
  rcases hm : c.StringsMap secretLoader e with ⟨params, _ | err⟩
  · rcases hb : e.Buffer with _ | b
    · rcases hf : e.Format with _ | f
      · simp [Id.run]
      · rcases hfd : c.FormatToDirective f secretLoader "" with ⟨d, _ | err⟩ <;>
          simp [Id.run, hfd] <;> aesop
    · rcases hbd : c.BufferToDirective b secretLoader (id ++ "_" ++ "kinesis_streams")
        with ⟨d, _ | err⟩
      · rcases hf : e.Format with _ | f
        · simp [Id.run, hbd]
          aesop
        · rcases hfd : c.FormatToDirective f secretLoader "" with ⟨d, _ | err⟩ <;>
            simp [Id.run, hfd, hbd] <;> aesop
      · simp [Id.run, hbd]
        aesop
  · simp [Id.run]

end ToDirectiveClaims

/-! The claims at the sample records -/

/-- Claim C2 at two inputs: with the sample callees the sample record compiles
to a node and the nil error; with a failing `Format` compilation the same call
returns the nil directive and that error, although the callee handed back a
directive. -/
theorem ToDirective_all_or_nothing_witness :
    (sampleRecord.ToDirective sampleCallees () "out1").2 = none ∧
    (sampleRecord.ToDirective sampleCalleesFormatFails () "out1") =
      (Directive.nil, some "format: unknown type") ∧
    (sampleCalleesFormatFails.FormatToDirective "json" () "").1 ≠ Directive.nil :=
  ⟨rfl,
   Prod.ext
    ((ToDirective_error_iff_and_all_or_nothing sampleCalleesFormatFails sampleRecord ()
      "out1").2.1 (by decide))
    rfl,
   by simp [sampleCalleesFormatFails, sampleCallees]⟩

/-- Claim C3 at the sample record with both sub-blocks and id `out1`: the
`Buffer` node comes first, the `Format` node second. -/
theorem ToDirective_children_order_witness :
    sampleRecordBoth.Buffer = some "file" ∧ sampleRecordBoth.Format = some "json" ∧
    (sampleRecordBoth.ToDirective sampleCallees () "out1").2 = none ∧
    ((∃ p, (sampleRecordBoth.ToDirective sampleCallees () "out1").1 = Directive.plugin p ∧
      p.SubDirectives =
        [Directive.plugin
          { PluginMeta := { Type_ := "file", Directive := "buffer", Tag := "",
                            Id := "out1_kinesis_streams_buffer" },
            Params := [], SubDirectives := [] },
         Directive.plugin
          { PluginMeta := { Type_ := "json", Directive := "format", Tag := "",
                            Id := "_format" },
            Params := [], SubDirectives := [] }]) ∧
    KinesisStreamOutputConfig.fieldNames.indexOf "Format" <
      KinesisStreamOutputConfig.fieldNames.indexOf "Buffer") :=
  ⟨rfl, rfl, rfl,
   ToDirective_children_order sampleCallees sampleRecordBoth () "out1" "file" "json"
     rfl rfl rfl⟩

/-- Claim C4 at the sample record (`Format` set, `Buffer` nil) and id `out1`:
exactly one child, the `Format` node. -/
theorem ToDirective_children_exact_witness :
    (sampleRecord.ToDirective sampleCallees () "out1").2 = none ∧
    ∃ p, (sampleRecord.ToDirective sampleCallees () "out1").1 = Directive.plugin p ∧
      p.SubDirectives =
        [] ++ [Directive.plugin
          { PluginMeta := { Type_ := "json", Directive := "format", Tag := "",
                            Id := "_format" },
            Params := [], SubDirectives := [] }] ∧
      p.SubDirectives.length = 0 + 1 :=
  ⟨rfl, ToDirective_children_exact sampleCallees sampleRecord () "out1" rfl⟩

/-- Claim C6 at the failing input: the record with `AssumeRoleCredentials` set
compiles successfully to a root without children. -/
theorem ToDirective_no_AssumeRoleCredentials_child_witness :
    sampleRecordAssumeRole.AssumeRoleCredentials.isSome = true ∧
    (sampleRecordAssumeRole.ToDirective sampleCallees () "out1").2 = none ∧
    ∃ p, (sampleRecordAssumeRole.ToDirective sampleCallees () "out1").1 = Directive.plugin p ∧
      p.SubDirectives = [] :=
  ⟨rfl, rfl,
   ToDirective_no_AssumeRoleCredentials_child sampleCallees sampleRecordAssumeRole () "out1"
     _ rfl rfl rfl rfl⟩

/-- Claim C8 at the sample record and id `out1`: the root carries the
parameters `stream_name: orders`, `region: us-east-1` of the mapper. -/
theorem ToDirective_params_witness :
    (sampleRecord.ToDirective sampleCallees () "out1").2 = none ∧
    ∃ p, (sampleRecord.ToDirective sampleCallees () "out1").1 = Directive.plugin p ∧
      p.Params = [("stream_name", "orders"), ("region", "us-east-1")] :=
  ⟨rfl, ToDirective_params sampleCallees sampleRecord () "out1" rfl⟩

/-- Claim C10 at the sample record with both sub-blocks, ids `out1` and `out2`:
the `Buffer` child is built under `out1_kinesis_streams`, the `Format` child
under the empty base id, the same for both ids. -/
theorem ToDirective_base_ids_witness :
    (sampleRecordBoth.ToDirective sampleCallees () "out1").2 = none ∧
    (sampleRecordBoth.ToDirective sampleCallees () "out2").2 = none ∧
    ∃ p p2, (sampleRecordBoth.ToDirective sampleCallees () "out1").1 = Directive.plugin p ∧
      (sampleRecordBoth.ToDirective sampleCallees () "out2").1 = Directive.plugin p2 ∧
      (∀ b, sampleRecordBoth.Buffer = some b → p.SubDirectives.head? =
        some (sampleCallees.BufferToDirective b () ("out1" ++ "_kinesis_streams")).1) ∧
      (∀ f, sampleRecordBoth.Format = some f → p.SubDirectives.getLast? =
        some (sampleCallees.FormatToDirective f () "").1) ∧
      (sampleRecordBoth.Format.isSome → p.SubDirectives.getLast? = p2.SubDirectives.getLast?) :=
  ⟨rfl, rfl, ToDirective_base_ids sampleCallees sampleRecordBoth () "out1" "out2" rfl rfl⟩

end output

/-! Driver predicates and block builders of the syslog-ng configuration -/

namespace config

open reflect

/-- A list holding elements that satisfy `p` at two positions `i < j` keeps at
least two elements under `filter p`. -/
theorem two_le_length_filter {α : Type} (p : α → Bool) :
    ∀ (l : List α) (i j : Nat) (x y : α), i < j → l[i]? = some x → l[j]? = some y →
      p x = true → p y = true → 2 ≤ (l.filter p).length := by
  intro l
  induction l with
  | nil => intro i j x y _ hx; simp at hx
  | cons a l ih =>
    intro i j x y hij hx hy hpx hpy
    obtain ⟨j, rfl⟩ : ∃ k, j = k + 1 := ⟨j - 1, by omega⟩
    rw [List.getElem?_cons_succ] at hy
    cases i with
    | zero =>
      simp only [List.getElem?_cons_zero, Option.some.injEq] at hx
      subst hx
      have hmem : y ∈ l.filter p :=
        List.mem_filter.mpr ⟨List.getElem?_mem hy, hpy⟩
      have hpos : 0 < (l.filter p).length := List.length_pos_of_mem hmem
      simp only [List.filter_cons, hpx, if_true, List.length_cons]
      omega
    | succ i =>
      rw [List.getElem?_cons_succ] at hx
      have h2 := ih i j x y (by omega) hx hy hpx hpy
      have hle : (l.filter p).length ≤ ((a :: l).filter p).length :=
        (List.Sublist.filter p (List.sublist_cons_self a l)).length_le
      omega

section DriverClaims

variable {Settings Renderer : Type}

/-- Claim C5, as the code has it: `isActiveDestinationDriver f` is true exactly
when the tag settings of `f` have the flag `dest-drv`, the declared type of `f`
is of pointer kind (whatever it points to) and the value of `f` is not nil; the
same holds of `isActiveParserDriver` with the flag `parser-drv`. -/
theorem isActiveDriver_iff (ts : TagSettings Settings) (f : Field) :
    (isActiveDestinationDriver ts f = some true ↔
      ts.Has (ts.structFieldSettings f.Meta) "dest-drv" = true ∧
      f.Meta.Type_.Kind = Kind.Pointer ∧
      f.Value.IsNil = some false) ∧
    (isActiveParserDriver ts f = some true ↔
      ts.Has (ts.structFieldSettings f.Meta) "parser-drv" = true ∧
      f.Meta.Type_.Kind = Kind.Pointer ∧
      f.Value.IsNil = some false) := by
  unfold isActiveDestinationDriver isActiveParserDriver hasDestDriverTag hasParserDriverTag
  constructor
  · by_cases ht : ts.Has (ts.structFieldSettings f.Meta) "dest-drv" = true <;>
      by_cases hk : f.Meta.Type_.Kind = Kind.Pointer <;>
      cases hn : f.Value.IsNil <;> simp [ht, hk]
  · by_cases ht : ts.Has (ts.structFieldSettings f.Meta) "parser-drv" = true <;>
      by_cases hk : f.Meta.Type_.Kind = Kind.Pointer <;>
      cases hn : f.Value.IsNil <;> simp [ht, hk]

/-- Claim C7, on the selector of section 4.3: when the fields at two distinct
positions of a record are both active destination drivers, selection fails
with the multiple-active-variants error of that record and yields no field. -/
theorem selectActiveDriver_two_active (ts : TagSettings Settings) (record : String)
    (fields : List Field) (i j : Nat) (f g : Field)
    (hij : i ≠ j) (hf : fields[i]? = some f) (hg : fields[j]? = some g)
    (haf : isActiveDestinationDriver ts f = some true)
    (hag : isActiveDestinationDriver ts g = some true) :
    selectActiveDriver (isActiveDestinationDriver ts) record fields =
        Except.error (CompileError.MultipleActiveVariantsError record) ∧
    ∀ out, selectActiveDriver (isActiveDestinationDriver ts) record fields ≠ Except.ok out := by
  have h2 : 2 ≤ (fields.filter fun x => isActiveDestinationDriver ts x == some true).length := by
    rcases Nat.lt_or_gt_of_ne hij with h | h
    · exact two_le_length_filter _ fields i j f g h hf hg (by simp [haf]) (by simp [hag])
    · exact two_le_length_filter _ fields j i g f h hg hf (by simp [hag]) (by simp [haf])
  have hsel : selectActiveDriver (isActiveDestinationDriver ts) record fields =
      Except.error (CompileError.MultipleActiveVariantsError record) := by
    unfold selectActiveDriver
    rcases hl : (fields.filter fun x => isActiveDestinationDriver ts x == some true)
      with _ | ⟨a, _ | ⟨b, rest⟩⟩
    · rw [hl] at h2; simp at h2
    · rw [hl] at h2; simp at h2
    · rfl
  refine ⟨hsel, fun out h => ?_⟩
  rw [hsel] at h
  cases h

/-- Claim C9: `destinationDefStmt name body` is `braceDefStmt "destination" name
body` and `parserDefStmt name body` is `braceDefStmt "parser" name body`: both
hand the name and the body on unchanged, under their own fixed label. -/
theorem defStmt_eq_braceDefStmt (braceDefStmt : String → String → Renderer → Renderer)
    (name : String) (body : Renderer) :
    destinationDefStmt braceDefStmt name body = braceDefStmt "destination" name body ∧
    parserDefStmt braceDefStmt name body = braceDefStmt "parser" name body :=
  ⟨rfl, rfl⟩

/-- On a field whose value has the kind of its declared type, neither driver
predicate panics: `IsNil` is reached on pointer values only. -/
theorem isActiveDriver_no_panic (ts : TagSettings Settings) (f : Field)
    (hk : f.Value.Kind = f.Meta.Type_.Kind) :
    isActiveDestinationDriver ts f ≠ none ∧ isActiveParserDriver ts f ≠ none := by
  unfold isActiveDestinationDriver isActiveParserDriver Value.IsNil
  constructor
  · by_cases ht : hasDestDriverTag ts f = true <;>
      by_cases hp : f.Meta.Type_.Kind = Kind.Pointer <;> simp [ht, hp, hk]
  · by_cases ht : hasParserDriverTag ts f = true <;>
      by_cases hp : f.Meta.Type_.Kind = Kind.Pointer <;> simp [ht, hp, hk]

end DriverClaims

/-- Claim C5 as worded fails: the non-nil field of type `*string` tagged
`dest-drv` is an active destination driver though its type is no pointer to a
nested record, and likewise for the parser predicate. -/
theorem isActiveDriver_pointer_to_record_counterexample :
    ¬ (isActiveDestinationDriver sampleTags samplePointerToString = some true ↔
        sampleTags.Has (sampleTags.structFieldSettings samplePointerToString.Meta)
          "dest-drv" = true ∧
        (∃ name, samplePointerToString.Meta.Type_ = RType.pointer (RType.struct name)) ∧
        samplePointerToString.Value.IsNil = some false) ∧
    ¬ (isActiveParserDriver sampleTags sampleParserPointerToString = some true ↔
        sampleTags.Has (sampleTags.structFieldSettings sampleParserPointerToString.Meta)
          "parser-drv" = true ∧
        (∃ name, sampleParserPointerToString.Meta.Type_ = RType.pointer (RType.struct name)) ∧
        sampleParserPointerToString.Value.IsNil = some false) := by
  constructor
  · intro h
    obtain ⟨_, ⟨name, hname⟩, _⟩ := h.mp (by decide)
    simp [samplePointerToString] at hname
  · intro h
    obtain ⟨_, ⟨name, hname⟩, _⟩ := h.mp (by decide)
    simp [sampleParserPointerToString] at hname

/-- Claim C7 at a record `Output` whose fields `File` and `Syslog` are both
active destination drivers: selection fails with the error for `Output`. -/
theorem selectActiveDriver_two_active_witness :
    isActiveDestinationDriver sampleTags sampleFileDriver = some true ∧
    isActiveDestinationDriver sampleTags sampleSyslogDriver = some true ∧
    (selectActiveDriver (isActiveDestinationDriver sampleTags) "Output"
        [sampleFileDriver, sampleSyslogDriver] =
        Except.error (CompileError.MultipleActiveVariantsError "Output") ∧
    ∀ out, selectActiveDriver (isActiveDestinationDriver sampleTags) "Output"
        [sampleFileDriver, sampleSyslogDriver] ≠ Except.ok out) :=
  ⟨by decide, by decide,
   selectActiveDriver_two_active sampleTags "Output" [sampleFileDriver, sampleSyslogDriver]
     0 1 sampleFileDriver sampleSyslogDriver (by decide) rfl rfl (by decide) (by decide)⟩

/-- The driver predicates return a value on the sample `File` field, whose
value is of pointer kind like its declared type. -/
theorem isActiveDriver_no_panic_witness :
    sampleFileDriver.Value.Kind = sampleFileDriver.Meta.Type_.Kind ∧
    isActiveDestinationDriver sampleTags sampleFileDriver ≠ none ∧
    isActiveParserDriver sampleTags sampleFileDriver ≠ none :=
  ⟨rfl, isActiveDriver_no_panic sampleTags sampleFileDriver rfl⟩

end config
